import Mathlib

/-!
Verification of the deterministic VIN-seeded telemetry/health synthesizer of
the Techions frontend.  The definitions below are shallow embeddings of the
JavaScript in `src/frontend/src/pages/VehicleMonitoring.jsx` and
`src/frontend/src/pages/CustomerDashboard.jsx`.  JavaScript numbers are
modelled by `ℚ` (every arithmetic operation performed by this code is exact
in binary floating point on the values that occur, so `ℚ` is faithful),
JS strings by `String`, timestamps by epoch milliseconds in `ℤ`.
-/

set_option autoImplicit false

namespace Techions

/-- JS `Math.round`: round half away from zero toward positive infinity,
i.e. `⌊x + 1/2⌋`, which is exactly Mathlib's `round` on `ℚ`. -/
def jsRound (x : ℚ) : ℤ := round x

/-- JS `Math.round(x * 10) / 10` (round to one decimal place). -/
def round1 (x : ℚ) : ℚ := ((jsRound (x * 10) : ℤ) : ℚ) / 10

/-- JS `Math.round(x * 100) / 100` (round to two decimal places). -/
def round2 (x : ℚ) : ℚ := ((jsRound (x * 100) : ℤ) : ℚ) / 100

/-- JS `Math.round(x * 1000) / 1000` (round to three decimal places). -/
def round3 (x : ℚ) : ℚ := ((jsRound (x * 1000) : ℤ) : ℚ) / 1000

/-- JS `vin.split('').reduce((acc, char) => acc + char.charCodeAt(0), 0)`:
the sum of the character codes of the string. -/
def charCodeSum (vin : String) : ℕ := (vin.data.map Char.toNat).sum

/-- The maximal run of digits at the head of a character list (the tail of a
regex `\d+` match once its first character is found). -/
def leadingDigits : List Char → List Char
  | [] => []
  | c :: cs => if c.isDigit then c :: leadingDigits cs else []

/-- JS `s.match(/\d+/)?.[0]`: the first maximal run of decimal digits of the
string, or `none` when the string has no digit. -/
def firstDigitRun : List Char → Option String
  | [] => none
  | c :: cs => if c.isDigit then some (String.mk (c :: leadingDigits cs)) else firstDigitRun cs

/-- Whether the first list is an initial segment of the second. -/
def beginsWith : List Char → List Char → Bool
  | [], _ => true
  | _ :: _, [] => false
  | p :: ps, c :: cs => p == c && beginsWith ps cs

/-- Whether `p` occurs as a contiguous segment of the second list. -/
def hasSubstring (p : List Char) : List Char → Bool
  | [] => beginsWith p []
  | c :: cs => beginsWith p (c :: cs) || hasSubstring p cs

/-- JS `vin.includes(pat)`. -/
def includes (vin pat : String) : Bool := hasSubstring pat.data vin.data

/-- VehicleMonitoring.jsx, `getLatestHealthScore`, lines 123–136: the inline
health-score formula evaluated when the view has no telemetry (`!vin ||
telemetry.length === 0`).  First hand-written copy of the synthesizer. -/
def getLatestHealthScoreNoTelemetry (vin : String) : ℚ :=
  let vinNumber : String := (firstDigitRun vin.data).getD "001"
  let baseHealth : ℚ :=
    if vinNumber == "001" || includes vin "VIN001" then 48.0
    else if vinNumber == "002" || includes vin "VIN002" then 72.0
    else 82.0
  let vinSeed : ℕ := charCodeSum vin
  let variation : ℤ := ((vinSeed % 7 : ℕ) : ℤ) - 3
  let healthScore : ℚ := max 30 (min 100 (baseHealth + (variation : ℚ)))
  round1 healthScore

/-- VehicleMonitoring.jsx, `getLatestHealthScore`, lines 145–157: the second
hand-written copy of the same formula, evaluated when the newest telemetry
record lacks a `health_score` field. -/
def getLatestHealthScoreMissingField (vin : String) : ℚ :=
  let vinNumber : String := (firstDigitRun vin.data).getD "001"
  let baseHealth : ℚ :=
    if vinNumber == "001" || includes vin "VIN001" then 48.0
    else if vinNumber == "002" || includes vin "VIN002" then 72.0
    else 82.0
  let vinSeed : ℕ := charCodeSum vin
  let variation : ℤ := ((vinSeed % 7 : ℕ) : ℤ) - 3
  let healthScore : ℚ := max 30 (min 100 (baseHealth + (variation : ℚ)))
  round1 healthScore

/-- The spec's `currentHealthScore(vin)` operation: the current health score
computed in isolation, i.e. the telemetry-free branch of the monitoring
view's `getLatestHealthScore`. -/
def currentHealthScore (vin : String) : ℚ := getLatestHealthScoreNoTelemetry vin

/-- CustomerDashboard.jsx, `generateSampleTelemetryForHealth`, lines 86–110
(its `health_score` result; the JS object also carries a wall-clock
timestamp, irrelevant to the score).  The JS guard `if (!vin) return
{health_score: 75.0, ...}` tests string falsiness, which for an actual
string argument means the empty string. -/
def generateSampleTelemetryForHealth (vin : String) : ℚ :=
  if vin = "" then 75.0
  else
    let vinNumber : String := (firstDigitRun vin.data).getD "001"
    let baseHealth : ℚ :=
      if vinNumber == "001" || includes vin "VIN001" then 48.0
      else if vinNumber == "002" || includes vin "VIN002" then 72.0
      else 82.0
    let vinSeed : ℕ := charCodeSum vin
    let variation : ℤ := ((vinSeed % 7 : ℕ) : ℤ) - 3
    let healthScore : ℚ := max 30 (min 100 (baseHealth + (variation : ℚ)))
    round1 healthScore

/-- The `baseHealth` local computed by every copy of the synthesizer
(VehicleMonitoring.jsx lines 168–176 before the generation loop, and
inlined again in each score copy): the closed three-way VIN-to-tier
lookup. -/
def mBase (vin : String) : ℚ :=
  let vinNumber : String := (firstDigitRun vin.data).getD "001"
  if vinNumber == "001" || includes vin "VIN001" then 48.0
  else if vinNumber == "002" || includes vin "VIN002" then 72.0
  else 82.0

/-- The `variation` local of the generation loop at index `i`
(VehicleMonitoring.jsx line 185): `((vinSeed + i) % 7) - 3`.  The isolated
score computations are the `i = 0` case. -/
def mVarAt (vin : String) (i : ℕ) : ℤ :=
  (((charCodeSum vin + i) % 7 : ℕ) : ℤ) - 3

/-- The `healthScore` local of the generation loop at index `i`
(VehicleMonitoring.jsx line 186): base plus variation, clamped to
`[30, 100]` by `Math.max(30, Math.min(100, _))`. -/
def mRawAt (vin : String) (i : ℕ) : ℚ :=
  max 30 (min 100 (mBase vin + ((mVarAt vin i : ℤ) : ℚ)))

/-- One element of the synthetic telemetry series
(VehicleMonitoring.jsx, `generateSampleTelemetry`, lines 220–233). -/
structure TelemetrySample where
  vin : String
  timestamp : ℤ
  engine_temperature : ℚ
  oil_pressure : ℚ
  vibration_level : ℚ
  battery_voltage : ℚ
  speed : ℕ
  mileage : ℕ
  health_score : ℚ
  prediction_risk : ℚ
  error_codes : List String
  anomaly_detected : Bool
deriving DecidableEq

/-- One iteration of the generation loop of VehicleMonitoring.jsx,
`generateSampleTelemetry`, lines 181–234: the sample pushed at loop index
`i`.  `now` is the epoch-millisecond value of `new Date()`; the ISO
timestamp string of the source is modelled by the epoch integer it renders,
`now - i * 60000`, which is order- and spacing-faithful. -/
def sampleAt (now : ℤ) (vin : String) (i : ℕ) : TelemetrySample :=
  let healthScore : ℚ := mRawAt vin i
  let k : ℕ := charCodeSum vin + i
  if healthScore < 50 then
    { vin := vin
      timestamp := now - (i : ℤ) * 60000
      engine_temperature := round1 (95 + ((k % 8 : ℕ) : ℚ))
      oil_pressure := round1 (28 + ((k % 5 : ℕ) : ℚ))
      battery_voltage := round2 (11.9 + ((k % 3 : ℕ) : ℚ) * 0.1)
      vibration_level := round2 (0.85 + ((k % 2 : ℕ) : ℚ) * 0.1)
      speed := 40 + k % 30
      mileage := 15000 + i * 10
      health_score := round1 healthScore
      prediction_risk := round3 (0.65 + ((k % 10 : ℕ) : ℚ) * 0.01)
      error_codes := ["P0300", "P0171"]
      anomaly_detected := true }
  else if healthScore < 70 then
    { vin := vin
      timestamp := now - (i : ℤ) * 60000
      engine_temperature := round1 (88 + ((k % 6 : ℕ) : ℚ))
      oil_pressure := round1 (32 + ((k % 6 : ℕ) : ℚ))
      battery_voltage := round2 (12.2 + ((k % 3 : ℕ) : ℚ) * 0.1)
      vibration_level := round2 (0.65 + ((k % 2 : ℕ) : ℚ) * 0.1)
      speed := 40 + k % 30
      mileage := 15000 + i * 10
      health_score := round1 healthScore
      prediction_risk := round3 (0.35 + ((k % 10 : ℕ) : ℚ) * 0.01)
      error_codes := []
      anomaly_detected := k % 3 == 0 }
  else
    { vin := vin
      timestamp := now - (i : ℤ) * 60000
      engine_temperature := round1 (85 + ((k % 5 : ℕ) : ℚ))
      oil_pressure := round1 (38 + ((k % 5 : ℕ) : ℚ))
      battery_voltage := round2 (12.6 + ((k % 2 : ℕ) : ℚ) * 0.1)
      vibration_level := round2 (0.55 + ((k % 2 : ℕ) : ℚ) * 0.05)
      speed := 40 + k % 30
      mileage := 15000 + i * 10
      health_score := round1 healthScore
      prediction_risk := round3 (0.15 + ((k % 5 : ℕ) : ℚ) * 0.01)
      error_codes := []
      anomaly_detected := false }

/-- VehicleMonitoring.jsx, `generateSampleTelemetry` (lines 160–236) with the
loop bound generalized to `count` (the source fixes the bound at 20): samples
are generated newest-first (`i = 0` carries the greatest timestamp) and the
array is reversed before returning, so the result is oldest-first. -/
def generateSampleTelemetrySeries (now : ℤ) (vin : String) (count : ℕ) : List TelemetrySample :=
  ((List.range count).map (sampleAt now vin)).reverse

/-- VehicleMonitoring.jsx, `generateSampleTelemetry`, exactly as in the
source: the 20-element series. -/
def generateSampleTelemetry (now : ℤ) (vin : String) : List TelemetrySample :=
  generateSampleTelemetrySeries now vin 20

/-- VehicleMonitoring.jsx, `getLatestHealthScore` (lines 120–158) over the
view's telemetry state: on `!vin` (empty string) or empty telemetry it
evaluates the inline formula (`getLatestHealthScoreNoTelemetry`); otherwise
it reads `telemetry[0].health_score`.  In this model the `health_score`
field is total, so the source's missing-field fallback branch (its second
inline copy, modelled as `getLatestHealthScoreMissingField`) cannot fire. -/
def getLatestHealthScore (vin : String) (telemetry : List TelemetrySample) : ℚ :=
  if vin = "" then getLatestHealthScoreNoTelemetry vin
  else
    match telemetry with
    | [] => getLatestHealthScoreNoTelemetry vin
    | latest :: _ => latest.health_score

lemma noTelemetry_eq_raw (v : String) :
    getLatestHealthScoreNoTelemetry v = round1 (mRawAt v 0) := rfl

lemma mBase_cases (v : String) : mBase v = 48 ∨ mBase v = 72 ∨ mBase v = 82 := by
  simp only [mBase]
  split_ifs with h1 h2
  · left; norm_num
  · right; left; norm_num
  · right; right; norm_num

lemma mVarAt_lb (v : String) (i : ℕ) : -3 ≤ mVarAt v i := by
  unfold mVarAt; omega

lemma mVarAt_ub (v : String) (i : ℕ) : mVarAt v i ≤ 3 := by
  unfold mVarAt; omega

lemma mRawAt_eq (v : String) (i : ℕ) :
    mRawAt v i = mBase v + ((mVarAt v i : ℤ) : ℚ) := by
  have h1 := mVarAt_lb v i
  have h2 := mVarAt_ub v i
  have hq1 : (-3 : ℚ) ≤ ((mVarAt v i : ℤ) : ℚ) := by exact_mod_cast h1
  have hq2 : ((mVarAt v i : ℤ) : ℚ) ≤ 3 := by exact_mod_cast h2
  rcases mBase_cases v with hb | hb | hb <;>
    (unfold mRawAt; rw [hb, min_eq_right (by linarith), max_eq_right (by linarith)])

lemma mRawAt_int (v : String) (i : ℕ) :
    ∃ m : ℤ, mRawAt v i = (m : ℚ) ∧ 45 ≤ m ∧ m ≤ 85 := by
  have h1 := mVarAt_lb v i
  have h2 := mVarAt_ub v i
  rcases mBase_cases v with hb | hb | hb
  · exact ⟨48 + mVarAt v i, by rw [mRawAt_eq, hb]; push_cast; ring, by omega, by omega⟩
  · exact ⟨72 + mVarAt v i, by rw [mRawAt_eq, hb]; push_cast; ring, by omega, by omega⟩
  · exact ⟨82 + mVarAt v i, by rw [mRawAt_eq, hb]; push_cast; ring, by omega, by omega⟩

lemma round1_intCast (m : ℤ) : round1 ((m : ℤ) : ℚ) = ((m : ℤ) : ℚ) := by
  unfold round1 jsRound
  rw [show ((m : ℚ) * 10) = (((m * 10 : ℤ) : ℤ) : ℚ) by push_cast; ring, round_intCast]
  push_cast
  exact mul_div_cancel_right₀ _ (by norm_num)

lemma round1_mRawAt (v : String) (i : ℕ) : round1 (mRawAt v i) = mRawAt v i := by
  obtain ⟨m, hm, _, _⟩ := mRawAt_int v i
  rw [hm, round1_intCast]

lemma mRawAt_bounds (v : String) (i : ℕ) : 45 ≤ mRawAt v i ∧ mRawAt v i ≤ 85 := by
  obtain ⟨m, hm, h1, h2⟩ := mRawAt_int v i
  constructor
  · rw [hm]; exact_mod_cast h1
  · rw [hm]; exact_mod_cast h2

lemma currentHealthScore_eq_raw (v : String) : currentHealthScore v = mRawAt v 0 := by
  rw [currentHealthScore, noTelemetry_eq_raw, round1_mRawAt]

lemma sampleAt_health (now : ℤ) (v : String) (i : ℕ) :
    (sampleAt now v i).health_score = round1 (mRawAt v i) := by
  simp only [sampleAt]
  split_ifs <;> rfl

lemma sampleAt_timestamp (now : ℤ) (v : String) (i : ℕ) :
    (sampleAt now v i).timestamp = now - (i : ℤ) * 60000 := by
  simp only [sampleAt]
  split_ifs <;> rfl

lemma sampleAt_cases (now : ℤ) (v : String) (i : ℕ) :
    (mRawAt v i < 50 ∧ (sampleAt now v i).anomaly_detected = true ∧
      (sampleAt now v i).error_codes = ["P0300", "P0171"]) ∨
    (50 ≤ mRawAt v i ∧ mRawAt v i < 70 ∧ (sampleAt now v i).error_codes = []) ∨
    (70 ≤ mRawAt v i ∧ (sampleAt now v i).anomaly_detected = false ∧
      (sampleAt now v i).error_codes = []) := by
  simp only [sampleAt]
  split_ifs with h1 h2
  · exact Or.inl ⟨h1, rfl, rfl⟩
  · exact Or.inr (Or.inl ⟨le_of_not_lt h1, h2, rfl⟩)
  · exact Or.inr (Or.inr ⟨le_of_not_lt h2, rfl, rfl⟩)

lemma dashboard_eq_noTelemetry (v : String) (hv : v ≠ "") :
    generateSampleTelemetryForHealth v = getLatestHealthScoreNoTelemetry v := by
  unfold generateSampleTelemetryForHealth
  rw [if_neg hv]
  rfl

lemma series_length (now : ℤ) (v : String) (n : ℕ) :
    (generateSampleTelemetrySeries now v n).length = n := by
  unfold generateSampleTelemetrySeries
  simp

lemma series_getElem (now : ℤ) (v : String) (n j : ℕ) (hj : j < n) :
    (generateSampleTelemetrySeries now v n)[j]? = some (sampleAt now v (n - 1 - j)) := by
  unfold generateSampleTelemetrySeries
  rw [List.getElem?_reverse (by simp [hj])]
  simp only [List.length_map, List.length_range]
  rw [List.getElem?_map, List.getElem?_range (by omega)]
  rfl

lemma currentHealthScore_bounds (v : String) :
    30 ≤ currentHealthScore v ∧ currentHealthScore v ≤ 100 := by
  rw [currentHealthScore_eq_raw]
  obtain ⟨h1, h2⟩ := mRawAt_bounds v 0
  exact ⟨by linarith, by linarith⟩

lemma dashboard_empty : generateSampleTelemetryForHealth "" = 75 := by
  unfold generateSampleTelemetryForHealth
  rw [if_pos rfl]
  norm_num

lemma noTelemetry_empty : getLatestHealthScoreNoTelemetry "" = 45 := by
  rw [noTelemetry_eq_raw, round1_mRawAt, mRawAt_eq]
  have hb : mBase "" = 48 := by
    simp only [mBase]
    rw [if_pos (by decide)]
    norm_num
  have hv : mVarAt "" 0 = -3 := by unfold mVarAt; decide
  rw [hb, hv]
  norm_num

lemma dashboard_bounds (v : String) :
    30 ≤ generateSampleTelemetryForHealth v ∧ generateSampleTelemetryForHealth v ≤ 100 := by
  by_cases hv : v = ""
  · subst hv
    rw [dashboard_empty]
    norm_num
  · rw [dashboard_eq_noTelemetry v hv, noTelemetry_eq_raw, round1_mRawAt]
    obtain ⟨h1, h2⟩ := mRawAt_bounds v 0
    exact ⟨by linarith, by linarith⟩

lemma mBase_vin001 : mBase "VIN001" = 48 := by
  simp only [mBase]
  rw [if_pos (by decide)]
  norm_num

lemma mBase_demo_vin_001 : mBase "DEMO_VIN_001" = 48 := by
  simp only [mBase]
  rw [if_pos (by decide)]
  norm_num

lemma mBase_vin002 : mBase "VIN002" = 72 := by
  simp only [mBase]
  rw [if_neg (by decide), if_pos (by decide)]
  norm_num

lemma mBase_vin999 : mBase "VIN999" = 82 := by
  simp only [mBase]
  rw [if_neg (by decide), if_neg (by decide)]
  norm_num

lemma score_vin001 : currentHealthScore "VIN001" = 49 := by
  rw [currentHealthScore_eq_raw, mRawAt_eq, mBase_vin001]
  have hv : mVarAt "VIN001" 0 = 1 := by unfold mVarAt; decide
  rw [hv]
  norm_num

lemma score_demo_vin_001 : currentHealthScore "DEMO_VIN_001" = 49 := by
  rw [currentHealthScore_eq_raw, mRawAt_eq, mBase_demo_vin_001]
  have hv : mVarAt "DEMO_VIN_001" 0 = 1 := by unfold mVarAt; decide
  rw [hv]
  norm_num

lemma score_vin002 : currentHealthScore "VIN002" = 74 := by
  rw [currentHealthScore_eq_raw, mRawAt_eq, mBase_vin002]
  have hv : mVarAt "VIN002" 0 = 2 := by unfold mVarAt; decide
  rw [hv]
  norm_num

lemma score_vin999 : currentHealthScore "VIN999" = 81 := by
  rw [currentHealthScore_eq_raw, mRawAt_eq, mBase_vin999]
  have hv : mVarAt "VIN999" 0 = -1 := by unfold mVarAt; decide
  rw [hv]
  norm_num

lemma sampleAt_empty_19 : (sampleAt 0 "" 19).health_score = 50 := by
  rw [sampleAt_health, round1_mRawAt, mRawAt_eq]
  have hb : mBase "" = 48 := by
    simp only [mBase]
    rw [if_pos (by decide)]
    norm_num
  have hv : mVarAt "" 19 = 2 := by unfold mVarAt; decide
  rw [hb, hv]
  norm_num

/-- C1 (amended): the monitoring view's fallback score and the customer
dashboard's `generateSampleTelemetryForHealth` are extensionally equal on
every nonempty VIN string.  (The claim's inclusion of the empty string fails:
see the counterexample.) -/
theorem C1_cross_view_consistency (v : String) (hv : v ≠ "") :
    generateSampleTelemetryForHealth v = getLatestHealthScoreNoTelemetry v :=
  dashboard_eq_noTelemetry v hv

/-- Witness for C1 at the concrete VIN "VIN001". -/
theorem C1_cross_view_consistency_witness :
    "VIN001" ≠ "" ∧
      generateSampleTelemetryForHealth "VIN001" = getLatestHealthScoreNoTelemetry "VIN001" :=
  ⟨by decide, C1_cross_view_consistency "VIN001" (by decide)⟩

/-- C1 counterexample: at the empty VIN string the dashboard implementation
short-circuits to 75.0 through its falsy-VIN guard, while the monitoring
view's fallback computes through the formula and returns 45.0, so the two
hand-copied implementations are not extensionally equal on every VIN string
including the empty string. -/
theorem C1_counterexample :
    generateSampleTelemetryForHealth "" = 75 ∧
      getLatestHealthScoreNoTelemetry "" = 45 ∧
      generateSampleTelemetryForHealth "" ≠ getLatestHealthScoreNoTelemetry "" := by
  refine ⟨dashboard_empty, noTelemetry_empty, ?_⟩
  rw [dashboard_empty, noTelemetry_empty]
  norm_num

/-- C2: the current-health-score computation is a pure function of the VIN
string: the two independent hand-written evaluations of it inside the
monitoring view (the no-telemetry branch, lines 123–136, and the
missing-field fallback, lines 145–157) return the identical value for every
VIN string, with no dependence on time, randomness, or shared state. -/
theorem C2_determinism (v : String) :
    getLatestHealthScoreNoTelemetry v = getLatestHealthScoreMissingField v := rfl

/-- C3: for every VIN string and every count `n ≥ 1`, the health score of
the newest element of the synthetic telemetry series (the sample generated
with loop index `i = 0`, which sits last in the oldest-first result) equals
the current health score computed in isolation. -/
theorem C3_score_series_agreement (now : ℤ) (v : String) (n : ℕ) (hn : 1 ≤ n) :
    (generateSampleTelemetrySeries now v n).getLast?.map (fun t => t.health_score) =
      some (currentHealthScore v) := by
  obtain ⟨m, rfl⟩ : ∃ m, n = m + 1 := ⟨n - 1, by omega⟩
  unfold generateSampleTelemetrySeries
  rw [List.getLast?_reverse, List.range_succ_eq_map, List.map_cons, List.head?_cons]
  simp only [Option.map_some']
  rw [sampleAt_health, round1_mRawAt, currentHealthScore_eq_raw]

/-- Witness for C3 at `now = 0`, VIN "VIN001" and the source's count 20. -/
theorem C3_score_series_agreement_witness :
    1 ≤ 20 ∧
      (generateSampleTelemetrySeries 0 "VIN001" 20).getLast?.map (fun t => t.health_score) =
        some (currentHealthScore "VIN001") :=
  ⟨by norm_num, C3_score_series_agreement 0 "VIN001" 20 (by norm_num)⟩

/-- C4: end-to-end literal evaluation for VIN "VIN001": the tier lookup
yields base health 48.0, the character-code sum is 86+73+78+48+48+49 = 382,
the variation is 382 % 7 - 3 = 4 - 3 = 1, and the current health score is
exactly 49.0. -/
theorem C4_end_to_end_vin001 :
    mBase "VIN001" = 48 ∧ charCodeSum "VIN001" = 382 ∧ 382 % 7 = 4 ∧
      currentHealthScore "VIN001" = 49 :=
  ⟨mBase_vin001, by decide, by norm_num, score_vin001⟩

/-- C5: in the generated 20-element telemetry series every sample with
health score below 50 carries `anomaly_detected = true` and error codes
["P0300", "P0171"], and every sample with health score at least 70 carries
`anomaly_detected = false` and no error codes: these fields are a function
of the health band. -/
theorem C5_band_correlation (now : ℤ) (v : String) (t : TelemetrySample)
    (ht : t ∈ generateSampleTelemetry now v) :
    (t.health_score < 50 → t.anomaly_detected = true ∧ t.error_codes = ["P0300", "P0171"]) ∧
      (70 ≤ t.health_score → t.anomaly_detected = false ∧ t.error_codes = []) := by
  unfold generateSampleTelemetry generateSampleTelemetrySeries at ht
  rw [List.mem_reverse, List.mem_map] at ht
  obtain ⟨i, hi, rfl⟩ := ht
  have hh : (sampleAt now v i).health_score = mRawAt v i := by
    rw [sampleAt_health, round1_mRawAt]
  rcases sampleAt_cases now v i with ⟨hc, ha, he⟩ | ⟨hc1, hc2, he⟩ | ⟨hc, ha, he⟩
  · constructor
    · intro _
      exact ⟨ha, he⟩
    · intro hge
      rw [hh] at hge
      exact absurd hge (not_le.mpr (by linarith))
  · constructor
    · intro hlt
      rw [hh] at hlt
      exact absurd hlt (not_lt.mpr (by linarith))
    · intro hge
      rw [hh] at hge
      exact absurd hge (not_le.mpr (by linarith))
  · constructor
    · intro hlt
      rw [hh] at hlt
      exact absurd hlt (not_lt.mpr (by linarith))
    · intro _
      exact ⟨ha, he⟩

/-- Witness for C5 at the newest generated sample of VIN "VIN001". -/
theorem C5_band_correlation_witness :
    sampleAt 0 "VIN001" 0 ∈ generateSampleTelemetry 0 "VIN001" ∧
      ((sampleAt 0 "VIN001" 0).health_score < 50 →
        (sampleAt 0 "VIN001" 0).anomaly_detected = true ∧
          (sampleAt 0 "VIN001" 0).error_codes = ["P0300", "P0171"]) ∧
      (70 ≤ (sampleAt 0 "VIN001" 0).health_score →
        (sampleAt 0 "VIN001" 0).anomaly_detected = false ∧
          (sampleAt 0 "VIN001" 0).error_codes = []) := by
  have hm : sampleAt 0 "VIN001" 0 ∈ generateSampleTelemetry 0 "VIN001" := by
    unfold generateSampleTelemetry generateSampleTelemetrySeries
    rw [List.mem_reverse]
    exact List.mem_map_of_mem _ (List.mem_range.mpr (by norm_num))
  exact ⟨hm, C5_band_correlation 0 "VIN001" _ hm⟩

/-- C6: for every VIN string the current health score lies in [30, 100]. -/
theorem C6_bounds (v : String) :
    30 ≤ currentHealthScore v ∧ currentHealthScore v ≤ 100 :=
  currentHealthScore_bounds v

/-- C7: for every VIN string the generated telemetry series has exactly 20
samples and its timestamps are strictly increasing, spaced exactly one
minute (60000 ms) apart: each sample's timestamp is 60000 ms after its
predecessor's. -/
theorem C7_series_shape (now : ℤ) (v : String) :
    (generateSampleTelemetry now v).length = 20 ∧
      ∀ (j : ℕ) (a b : TelemetrySample),
        (generateSampleTelemetry now v)[j]? = some a →
        (generateSampleTelemetry now v)[j + 1]? = some b →
        b.timestamp = a.timestamp + 60000 := by
  have hlen : (generateSampleTelemetry now v).length = 20 := series_length now v 20
  refine ⟨hlen, fun j a b ha hb => ?_⟩
  have hjb : j + 1 < 20 := by
    by_contra hcon
    have hnone : (generateSampleTelemetry now v)[j + 1]? = none :=
      List.getElem?_eq_none (by rw [hlen]; omega)
    rw [hnone] at hb
    exact Option.noConfusion hb
  have hja : j < 20 := by omega
  rw [show generateSampleTelemetry now v = generateSampleTelemetrySeries now v 20 from rfl,
    series_getElem now v 20 j hja] at ha
  rw [show generateSampleTelemetry now v = generateSampleTelemetrySeries now v 20 from rfl,
    series_getElem now v 20 (j + 1) hjb] at hb
  obtain rfl : a = sampleAt now v (20 - 1 - j) := (Option.some.inj ha).symm
  obtain rfl : b = sampleAt now v (20 - 1 - (j + 1)) := (Option.some.inj hb).symm
  rw [sampleAt_timestamp, sampleAt_timestamp]
  omega

/-- Witness for C7 at `now = 0`, VIN "VIN001", adjacent indices 0 and 1. -/
theorem C7_series_shape_witness :
    (generateSampleTelemetry 0 "VIN001")[0]? = some (sampleAt 0 "VIN001" 19) ∧
      (generateSampleTelemetry 0 "VIN001")[1]? = some (sampleAt 0 "VIN001" 18) ∧
      (sampleAt 0 "VIN001" 18).timestamp = (sampleAt 0 "VIN001" 19).timestamp + 60000 := by
  have h0 : (generateSampleTelemetry 0 "VIN001")[0]? = some (sampleAt 0 "VIN001" 19) := rfl
  have h1 : (generateSampleTelemetry 0 "VIN001")[1]? = some (sampleAt 0 "VIN001" 18) := rfl
  exact ⟨h0, h1, (C7_series_shape 0 "VIN001").2 0 _ _ h0 h1⟩

/-- C8: tier mapping literal cases: "DEMO_VIN_001" scores within
[45, 51] (low tier, base 48), "VIN002" within [69, 75] (medium tier,
base 72), and "VIN999" within [79, 85] (default good tier, base 82, since
its digit run "999" matches neither special case). -/
theorem C8_tier_literals :
    (mBase "DEMO_VIN_001" = 48 ∧
      45 ≤ currentHealthScore "DEMO_VIN_001" ∧ currentHealthScore "DEMO_VIN_001" ≤ 51) ∧
      (mBase "VIN002" = 72 ∧
        69 ≤ currentHealthScore "VIN002" ∧ currentHealthScore "VIN002" ≤ 75) ∧
      (mBase "VIN999" = 82 ∧
        79 ≤ currentHealthScore "VIN999" ∧ currentHealthScore "VIN999" ≤ 85) := by
  refine ⟨⟨mBase_demo_vin_001, ?_, ?_⟩, ⟨mBase_vin002, ?_, ?_⟩, ⟨mBase_vin999, ?_, ?_⟩⟩
  · rw [score_demo_vin_001]; norm_num
  · rw [score_demo_vin_001]; norm_num
  · rw [score_vin002]; norm_num
  · rw [score_vin002]; norm_num
  · rw [score_vin999]; norm_num
  · rw [score_vin999]; norm_num

/-- C9: totality: for every VIN string (the empty string, digit-free
strings and arbitrarily long strings included) both the health-score
computations and the telemetry-series generation are total functions that
produce a well-formed result: scores within [30, 100] and a 20-element
series.  In this shallow embedding every operation is a total, structurally
terminating Lean function evaluated over the whole string domain. -/
theorem C9_totality (v : String) (now : ℤ) :
    30 ≤ currentHealthScore v ∧ currentHealthScore v ≤ 100 ∧
      30 ≤ generateSampleTelemetryForHealth v ∧ generateSampleTelemetryForHealth v ≤ 100 ∧
      (generateSampleTelemetry now v).length = 20 :=
  ⟨(currentHealthScore_bounds v).1, (currentHealthScore_bounds v).2,
    (dashboard_bounds v).1, (dashboard_bounds v).2, series_length now v 20⟩

/-- C10 (amended): for every nonempty VIN string, when the monitoring
view's telemetry state holds the generated series, the displayed "latest"
health score read from `telemetry[0]` is the oldest sample's score (loop
index `i = 19`, variation `((seed + 19) % 7) - 3`), and it differs from
the isolated current-health-score computation (variation
`(seed % 7) - 3`), since 19 is not a multiple of 7.  (The claim's "for
every VIN string" fails at the empty string, where the view's falsy-VIN
guard bypasses `telemetry[0]`: see the counterexample.) -/
theorem C10_displayed_latest (now : ℤ) (v : String) (hv : v ≠ "") :
    (generateSampleTelemetry now v).head? = some (sampleAt now v 19) ∧
      getLatestHealthScore v (generateSampleTelemetry now v) = (sampleAt now v 19).health_score ∧
      getLatestHealthScore v (generateSampleTelemetry now v) ≠ currentHealthScore v := by
  have hhead : (generateSampleTelemetry now v).head? = some (sampleAt now v 19) := rfl
  have hdisp : getLatestHealthScore v (generateSampleTelemetry now v) =
      (sampleAt now v 19).health_score := by
    unfold getLatestHealthScore
    rw [if_neg hv]
    rfl
  refine ⟨hhead, hdisp, ?_⟩
  rw [hdisp, sampleAt_health, round1_mRawAt, currentHealthScore_eq_raw, mRawAt_eq, mRawAt_eq]
  intro heq
  have hvar : mVarAt v 19 = mVarAt v 0 := by exact_mod_cast add_left_cancel heq
  unfold mVarAt at hvar
  omega

/-- Witness for C10 at `now = 0` and the concrete VIN "VIN001". -/
theorem C10_displayed_latest_witness :
    "VIN001" ≠ "" ∧
      ((generateSampleTelemetry 0 "VIN001").head? = some (sampleAt 0 "VIN001" 19) ∧
        getLatestHealthScore "VIN001" (generateSampleTelemetry 0 "VIN001") =
          (sampleAt 0 "VIN001" 19).health_score ∧
        getLatestHealthScore "VIN001" (generateSampleTelemetry 0 "VIN001") ≠
          currentHealthScore "VIN001") :=
  ⟨by decide, C10_displayed_latest 0 "VIN001" (by decide)⟩

/-- C10 counterexample: at the empty VIN string the view's falsy-VIN guard
routes `getLatestHealthScore` to the fallback formula (score 45.0) even
though the generated series is present, while the oldest generated sample
scores 50.0, so the displayed value is not the oldest sample's score for
every VIN string. -/
theorem C10_counterexample :
    getLatestHealthScore "" (generateSampleTelemetry 0 "") = 45 ∧
      (generateSampleTelemetry 0 "").head? = some (sampleAt 0 "" 19) ∧
      (sampleAt 0 "" 19).health_score = 50 ∧
      getLatestHealthScore "" (generateSampleTelemetry 0 "") ≠ (sampleAt 0 "" 19).health_score := by
  have hd : getLatestHealthScore "" (generateSampleTelemetry 0 "") = 45 := by
    unfold getLatestHealthScore
    rw [if_pos rfl]
    exact noTelemetry_empty
  refine ⟨hd, rfl, sampleAt_empty_19, ?_⟩
  rw [hd, sampleAt_empty_19]
  norm_num

end Techions
